import Mathlib

/-
Verification of the SiteWatch frontend services (websocket.js, App.js,
ScheduledJobs.js) and of the monitoring-core behaviour described by the
design document, as a shallow embedding in Lean 4.
-/

/- ===== WebSocketService (src/frontend/src/services/websocket.js) ===== -/

/-- Mirror of the browser WebSocket readyState constants
(CONNECTING = 0, OPEN = 1, CLOSING = 2, CLOSED = 3). -/
inductive ReadyState where
  | connecting
  | opened
  | closing
  | closed
deriving DecidableEq, Repr

/-- The part of a browser WebSocket object the service code reads. -/
structure Socket where
  readyState : ReadyState
deriving DecidableEq, Repr

/-- JS `Set.add`: insertion-ordered, no duplicates — adding an element
already present leaves the set unchanged. Elements are handler identities
(JS compares function objects by reference), modelled as naturals. -/
def setAdd (l : List Nat) (h : Nat) : List Nat :=
  if h ∈ l then l else l ++ [h]

/-- JS `Set.delete`: removes the element if present. Since `setAdd` never
creates duplicates, removing every occurrence is the same operation. -/
def setDelete (l : List Nat) (h : Nat) : List Nat :=
  l.filter (fun x => x ≠ h)

/-- State of a `WebSocketService` instance (the fields assigned in the
constructor at websocket.js lines 2-10). -/
structure WSService where
  ws : Option Socket
  messageHandlers : List Nat
  connectHandlers : List Nat
  disconnectHandlers : List Nat
  reconnectAttempts : Nat
  maxReconnectAttempts : Nat
  reconnectInterval : Nat
deriving DecidableEq, Repr

/-- `new WebSocketService()`: the constructor body. -/
def WSService.init : WSService :=
  { ws := none
  , messageHandlers := []
  , connectHandlers := []
  , disconnectHandlers := []
  , reconnectAttempts := 0
  , maxReconnectAttempts := 5
  , reconnectInterval := 1000 }

/-- `WebSocketService.getInstance()`: reads the static `instance` field
(modelled as `Option WSService`), constructing the service on first use.
Returns the instance handed to the caller and the static field afterwards. -/
def getInstance (instVar : Option WSService) : WSService × Option WSService :=
  match instVar with
  | none => (WSService.init, some WSService.init)
  | some i => (i, some i)

/-- `addMessageHandler(handler)`: adds to the `messageHandlers` set and
returns the cleanup closure `() => this.messageHandlers.delete(handler)`
(modelled as a state transformer). -/
def addMessageHandler (s : WSService) (h : Nat) :
    WSService × (WSService → WSService) :=
  ({ s with messageHandlers := setAdd s.messageHandlers h },
   fun s2 => { s2 with messageHandlers := setDelete s2.messageHandlers h })

/-- `addConnectHandler(handler)` and its returned cleanup closure. -/
def addConnectHandler (s : WSService) (h : Nat) :
    WSService × (WSService → WSService) :=
  ({ s with connectHandlers := setAdd s.connectHandlers h },
   fun s2 => { s2 with connectHandlers := setDelete s2.connectHandlers h })

/-- `addDisconnectHandler(handler)` and its returned cleanup closure. -/
def addDisconnectHandler (s : WSService) (h : Nat) :
    WSService × (WSService → WSService) :=
  ({ s with disconnectHandlers := setAdd s.disconnectHandlers h },
   fun s2 => { s2 with disconnectHandlers := setDelete s2.disconnectHandlers h })

/-- The `forEach` loop inside `ws.onmessage` (and `onopen` / `onclose`):
each handler is invoked inside its own try/catch, so the loop records the
outcome (normal return or thrown error) and continues with the next handler
regardless. `env` maps a handler identity to the function it denotes, a
function that either returns or throws (`Except.error`). -/
def forEachCaught {α : Type} (env : Nat → α → Except String Unit)
    (ids : List Nat) (data : α) : List (Except String Unit) :=
  match ids with
  | [] => []
  | i :: rest => env i data :: forEachCaught env rest data

/-- `ws.onmessage` (websocket.js lines 53-66): parse the raw event data
(`JSON.parse`, a host function modelled by the `parse` parameter; a parse
failure is caught by the outer try and no handler runs), then run every
registered message handler on the parsed value with per-handler catch. -/
def onmessage {α : Type} (parse : String → Option α)
    (env : Nat → α → Except String Unit) (ids : List Nat) (raw : String) :
    List (Except String Unit) :=
  match parse raw with
  | some data => forEachCaught env ids data
  | none => []

/-- The `forEach` loop of `ws.onopen` / `ws.onclose`: zero-argument
handlers, each run inside its own try/catch. -/
def fireCaught (env : Nat → Except String Unit) (ids : List Nat) :
    List (Except String Unit) :=
  match ids with
  | [] => []
  | i :: rest => env i :: fireCaught env rest

/-- `sendMessage(message)` (websocket.js lines 96-102): sends
`JSON.stringify(message)` when the socket exists and is OPEN, otherwise
only logs an error. The result is the payload written to the socket, if
any; the function has no throwing path. `stringify` models the host
`JSON.stringify`. -/
def sendMessage {α : Type} (stringify : α → String)
    (ws : Option Socket) (msg : α) : Option String :=
  match ws with
  | some s => if s.readyState = ReadyState.opened
              then some (stringify msg) else none
  | none => none

/-- `reconnect()` (websocket.js lines 104-115): while below the attempt
cap, increments the counter and schedules `connect()` after
`reconnectInterval * reconnectAttempts` ms; at the cap it only logs.
Returns the updated state and the scheduled delay, if any. -/
def reconnect (s : WSService) : WSService × Option Nat :=
  if s.reconnectAttempts < s.maxReconnectAttempts then
    let s2 := { s with reconnectAttempts := s.reconnectAttempts + 1 }
    (s2, some (s.reconnectInterval * s2.reconnectAttempts))
  else
    (s, none)

/-- State after `n` consecutive failed reconnect rounds starting from a
fresh service (each round: `onclose` fires and calls `reconnect`, and the
scheduled `connect()` fails again without ever reaching `onopen`). -/
def reconnectIter (n : Nat) : WSService :=
  Nat.rec WSService.init (fun _ s => (reconnect s).1) n

/-- The delay scheduled by the reconnect round following `n` prior
consecutive failures (`none` when no reconnection is scheduled). -/
def nthDelay (n : Nat) : Option Nat :=
  (reconnect (reconnectIter n)).2

/-- `ws.onopen` resets the consecutive-failure counter (websocket.js
line 43). -/
def onopenReset (s : WSService) : WSService :=
  { s with reconnectAttempts := 0 }

/- ===== App.js job-list state updates ===== -/

/-- A scheduled monitoring job as rendered by the UI: the fields read in
ScheduledJobs.js and updated in App.js. Timestamp fields may be absent
(`null`), hence `Option`. -/
structure Job where
  id : Nat
  name : String
  monitoring_focus : String
  last_run : Option String
  next_run : Option String
  is_active : Bool
  query : String
  urls : List String
  schedule_cron : String
  created_at : Option String
deriving DecidableEq, Repr

/-- A concrete job value used to instantiate the job-list theorems. -/
def sampleJob (i : Nat) (act : Bool) : Job :=
  { id := i, name := "quantum news", monitoring_focus := "breakthroughs"
  , last_run := none, next_run := none, is_active := act
  , query := "quantum computing", urls := ["https://example.com"]
  , schedule_cron := "0 * * * *", created_at := some "2024-01-01" }

/-- `App.deleteJob(jobId)` (App.js lines 83-90): awaits the DELETE API
call; on success replaces the jobs state with
`prev.filter(job => job.id !== jobId)`; a rejected API call is caught and
the state updater never runs. `apiOk` is whether the API call succeeded. -/
def deleteJob (apiOk : Bool) (jobs : List Job) (jobId : Nat) : List Job :=
  if apiOk then jobs.filter (fun job => job.id ≠ jobId) else jobs

/-- `App.toggleJob(jobId)` (App.js lines 72-81): awaits the toggle API
call, then maps over the jobs state replacing the matching job with
`{ ...job, is_active: updatedJob.is_active }`. `newActive` is the
`is_active` value of the job returned by the API. -/
def toggleJob (jobs : List Job) (jobId : Nat) (newActive : Bool) :
    List Job :=
  jobs.map (fun job =>
    if job.id = jobId then { job with is_active := newActive } else job)

/- ===== ScheduledJobs.formatDate ===== -/

/-- A JS date-string argument as `formatDate` can receive it: `null`,
`undefined`, or a string. -/
inductive DateArg where
  | null
  | undefined
  | str (s : String)
deriving DecidableEq, Repr

/-- `formatDate(dateString)` (ScheduledJobs.js lines 6-14): `!dateString`
is true exactly for `null`, `undefined` and the empty string, giving
`'Never'`; otherwise the code returns
`new Date(dateString).toLocaleString([], {month, day, hour, minute})`,
a host locale rendering modelled by the `toLocale` parameter. -/
def formatDate (toLocale : String → String) (d : DateArg) : String :=
  match d with
  | DateArg.null => "Never"
  | DateArg.undefined => "Never"
  | DateArg.str s => if s = "" then "Never" else toLocale s

/- ===== Monitoring core (modelled from the spec) ===== -/

/-- Verdict of a fetch-compare cycle (spec §3, data model). -/
inductive Verdict where
  | Unchanged
  | Trivial
  | Significant
  | Error
deriving DecidableEq, Repr

/-- A captured content snapshot (spec §3). -/
structure Snapshot where
  capturedAt : Nat
  content : String
deriving DecidableEq, Repr

/-- Classifier thresholds (spec §4.3): configuration, not constants. -/
structure ClassifierConfig where
  trivialThreshold : Rat
  significantThreshold : Rat
deriving DecidableEq, Repr

/-- Modelled from the spec: the Significance Classifier (spec §4.3) is not
present under src/. Stage 1 — if normalized-content fingerprints are
equal, verdict `Unchanged`, no further work. Stage 2 — structural
distance below `trivialThreshold` gives `Trivial`, above
`significantThreshold` gives `Significant`. Stage 3 — in the ambiguous
band between the thresholds the default policy is conservative toward
`Significant`. `fingerprint` abstracts the stable hash of normalized
content and `distance` the structural distance measure, both tunable per
the spec. The second component records the stage at which the verdict was
decided. -/
def classify (fingerprint : String → Nat)
    (distance : String → String → Rat) (cfg : ClassifierConfig)
    (baseline fresh : Snapshot) : Verdict × Nat :=
  if fingerprint baseline.content = fingerprint fresh.content then
    (Verdict.Unchanged, 1)
  else
    let d := distance baseline.content fresh.content
    if d < cfg.trivialThreshold then (Verdict.Trivial, 2)
    else if cfg.significantThreshold < d then (Verdict.Significant, 2)
    else (Verdict.Significant, 3)

/-- A fetch failure (spec §6, Fetcher interface). -/
structure FetchError where
  message : String
deriving DecidableEq, Repr

/-- Outcome of one fetch-compare-alert cycle for one source. -/
structure CycleResult where
  verdict : Verdict
  newBaseline : Option Snapshot
  committed : Bool
  alerted : Bool
deriving DecidableEq, Repr

/-- Modelled from the spec: the per-source fetch-compare-alert cycle
(spec §2 control flow, §4.1, §4.2) is not present under src/. A fetch
error yields verdict `Error` with the baseline untouched. With no prior
accepted baseline, the first non-error fetch is accepted as the baseline
with verdict `Unchanged`/initial and no alert. Otherwise the classifier
runs; only a `Significant` verdict commits the new snapshot as baseline
and dispatches one alert, while `Unchanged`/`Trivial` never mutate the
baseline. -/
def runCycle (fingerprint : String → Nat)
    (distance : String → String → Rat) (cfg : ClassifierConfig)
    (baseline : Option Snapshot) (fetched : Except FetchError Snapshot) :
    CycleResult :=
  match fetched with
  | Except.error _ =>
      { verdict := Verdict.Error, newBaseline := baseline
      , committed := false, alerted := false }
  | Except.ok snap =>
      match baseline with
      | none =>
          { verdict := Verdict.Unchanged, newBaseline := some snap
          , committed := true, alerted := false }
      | some base =>
          match (classify fingerprint distance cfg base snap).1 with
          | Verdict.Significant =>
              { verdict := Verdict.Significant, newBaseline := some snap
              , committed := true, alerted := true }
          | v =>
              { verdict := v, newBaseline := some base
              , committed := false, alerted := false }

/- ===== Helper lemmas ===== -/

/-- After `n` consecutive failed reconnect rounds the only field that has
changed is the attempt counter, which saturates at the cap of 5. -/
lemma reconnectIter_eq (n : Nat) :
    reconnectIter n = { WSService.init with reconnectAttempts := min n 5 } := by
  induction n with
  | zero => rfl
  | succ n ih =>
    have h1 : reconnectIter (n + 1) = (reconnect (reconnectIter n)).1 := rfl
    rw [h1, ih]
    rcases Nat.lt_or_ge n 5 with h | h
    · have hm : min n 5 = n := by omega
      have hm2 : min (n + 1) 5 = n + 1 := by omega
      simp [reconnect, WSService.init, hm, hm2, h]
    · have hm : min n 5 = 5 := by omega
      have hm2 : min (n + 1) 5 = 5 := by omega
      simp [reconnect, WSService.init, hm, hm2]

/-- Claim C1 (amended): reconnection uses capped linear backoff — after
`n` prior consecutive failures the next reconnect round schedules a delay
of `reconnectInterval * (n + 1)` = 1000·(n+1) ms, growing linearly in the
attempt count, and once maxReconnectAttempts (5) consecutive failures
have occurred no further reconnection is ever scheduled. -/
theorem reconnect_backoff_linear_capped (n : Nat) :
    nthDelay n = if n < 5 then some (1000 * (n + 1)) else none := by
  unfold nthDelay
  rw [reconnectIter_eq]
  rcases Nat.lt_or_ge n 5 with h | h
  · have hm : min n 5 = n := by omega
    simp [reconnect, WSService.init, hm, h]
  · have hm : min n 5 = 5 := by omega
    have h5 : ¬ n < 5 := by omega
    simp [reconnect, WSService.init, hm, h5]

/-- Claim C1 counterexample: the delays actually scheduled after zero, one
and two prior consecutive failures are 1000, 2000 and 3000 ms — an
arithmetic progression, not a geometric one (any sequence growing
exponentially in the attempt count satisfies d0·d2 = d1·d1, which fails
here since 1000·3000 ≠ 2000·2000), so the delays do not grow
exponentially as the claim states. -/
theorem reconnect_delays_not_geometric :
    nthDelay 0 = some 1000 ∧ nthDelay 1 = some 2000 ∧
    nthDelay 2 = some 3000 ∧
    (nthDelay 0).getD 0 * (nthDelay 2).getD 0 ≠
      (nthDelay 1).getD 0 * (nthDelay 1).getD 0 := by
  decide

/-- Claim C9: `getInstance` is idempotent — the first call constructs the
single instance and stores it in the static field, and every later call
returns exactly that stored instance without changing the field, so all
registrations and connection state are shared across call sites. -/
theorem getInstance_idempotent (s : Option WSService) :
    getInstance none = (WSService.init, some WSService.init) ∧
    (getInstance (getInstance s).2).1 = (getInstance s).1 ∧
    (getInstance (getInstance s).2).2 = (getInstance s).2 := by
  refine ⟨rfl, ?_, ?_⟩ <;> cases s <;> rfl

/-- Claim C10: `formatDate` returns "Never" exactly on the falsy inputs
(null, undefined, empty string) and otherwise returns the host locale
rendering (month/day/hour/minute `toLocaleString`) of the date parsed
from the input. -/
theorem formatDate_never_or_locale (toLocale : String → String)
    (s : String) (hs : s ≠ "") :
    formatDate toLocale DateArg.null = "Never" ∧
    formatDate toLocale DateArg.undefined = "Never" ∧
    formatDate toLocale (DateArg.str "") = "Never" ∧
    formatDate toLocale (DateArg.str s) = toLocale s := by
  refine ⟨rfl, rfl, rfl, ?_⟩
  simp [formatDate, hs]

/-- Concrete instantiation of the C10 theorem at a nonempty date string. -/
theorem formatDate_never_or_locale_witness :
    ("2024-01-01" ≠ "") ∧
    (formatDate (fun x => x ++ "!") DateArg.null = "Never" ∧
     formatDate (fun x => x ++ "!") DateArg.undefined = "Never" ∧
     formatDate (fun x => x ++ "!") (DateArg.str "") = "Never" ∧
     formatDate (fun x => x ++ "!") (DateArg.str "2024-01-01") =
       (fun x => x ++ "!") "2024-01-01") :=
  ⟨by decide,
   formatDate_never_or_locale (fun x => x ++ "!") "2024-01-01" (by decide)⟩

/-- Claim C4: `sendMessage` never throws; when the socket is absent or
not OPEN it sends nothing (the failure is only logged), and when the
socket is OPEN it sends exactly the JSON serialization of the message. -/
theorem sendMessage_silent_failure_or_json {α : Type}
    (stringify : α → String) (ws : Option Socket) (msg : α) :
    (ws = none → sendMessage stringify ws msg = none) ∧
    (∀ s, ws = some s → s.readyState ≠ ReadyState.opened →
      sendMessage stringify ws msg = none) ∧
    (∀ s, ws = some s → s.readyState = ReadyState.opened →
      sendMessage stringify ws msg = some (stringify msg)) := by
  refine ⟨?_, ?_, ?_⟩
  · rintro rfl; rfl
  · rintro s rfl h; simp [sendMessage, h]
  · rintro s rfl h; simp [sendMessage, h]

/-- Concrete instantiation of the C4 theorem: a closed socket sends
nothing, an open socket sends the serialized message. -/
theorem sendMessage_silent_failure_or_json_witness :
    sendMessage (fun n : Nat => toString n)
      (some (Socket.mk ReadyState.closed)) 7 = none ∧
    sendMessage (fun n : Nat => toString n)
      (some (Socket.mk ReadyState.opened)) 7 =
      some ((fun n : Nat => toString n) 7) :=
  ⟨(sendMessage_silent_failure_or_json (fun n : Nat => toString n)
      (some (Socket.mk ReadyState.closed)) 7).2.1
      (Socket.mk ReadyState.closed) rfl (by decide),
   (sendMessage_silent_failure_or_json (fun n : Nat => toString n)
      (some (Socket.mk ReadyState.opened)) 7).2.2
      (Socket.mk ReadyState.opened) rfl rfl⟩

/-- Claim C7: for a source with no prior accepted baseline, the first
non-error fetch is accepted as the baseline, the verdict is
`Unchanged`/initial and never `Significant`, and no alert is dispatched. -/
theorem first_fetch_becomes_baseline (fp : String → Nat)
    (dist : String → String → Rat) (cfg : ClassifierConfig)
    (snap : Snapshot) :
    runCycle fp dist cfg none (Except.ok snap) =
      { verdict := Verdict.Unchanged, newBaseline := some snap
      , committed := true, alerted := false } ∧
    (runCycle fp dist cfg none (Except.ok snap)).verdict ≠
      Verdict.Significant := by
  constructor <;> simp [runCycle]

/-- The per-handler try/catch loop invokes the `i`-th registered handler
on exactly the shared data, whatever the other handlers do. -/
lemma forEachCaught_get? {α : Type} (env : Nat → α → Except String Unit)
    (ids : List Nat) (data : α) (i : Nat) :
    (forEachCaught env ids data).get? i =
      (ids.get? i).map (fun j => env j data) := by
  induction ids generalizing i with
  | nil => simp [forEachCaught]
  | cons a rest ih =>
    cases i with
    | zero => simp [forEachCaught]
    | succ k => simpa [forEachCaught] using ih k

/-- Same pointwise description for the zero-argument handler loop. -/
lemma fireCaught_get? (env : Nat → Except String Unit)
    (ids : List Nat) (i : Nat) :
    (fireCaught env ids).get? i = (ids.get? i).map env := by
  induction ids generalizing i with
  | nil => simp [fireCaught]
  | cons a rest ih =>
    cases i with
    | zero => simp [fireCaught]
    | succ k => simpa [fireCaught] using ih k

/-- The caught loops invoke every registered handler. -/
lemma forEachCaught_length {α : Type} (env : Nat → α → Except String Unit)
    (ids : List Nat) (data : α) :
    (forEachCaught env ids data).length = ids.length := by
  induction ids with
  | nil => rfl
  | cons a rest ih => simpa [forEachCaught] using ih

/-- Claim C2: handler errors are contained. When the raw event parses to
`data`, message processing invokes every registered message handler, and
the `i`-th invocation is exactly handler `i` applied to the same parsed
`data` — an error thrown by any handler (an `Except.error` outcome in the
list) never prevents the other handlers from being invoked or halts the
loop. The same pointwise containment holds for the connect and
disconnect handler loops. -/
theorem handler_errors_contained {α : Type} (parse : String → Option α)
    (env : Nat → α → Except String Unit)
    (cenv denv : Nat → Except String Unit)
    (mids cids dids : List Nat) (raw : String) (data : α) (i : Nat)
    (hp : parse raw = some data) :
    (onmessage parse env mids raw).length = mids.length ∧
    (onmessage parse env mids raw).get? i =
      (mids.get? i).map (fun j => env j data) ∧
    (fireCaught cenv cids).get? i = (cids.get? i).map cenv ∧
    (fireCaught denv dids).get? i = (dids.get? i).map denv := by
  have ho : onmessage parse env mids raw = forEachCaught env mids data := by
    simp [onmessage, hp]
  exact ⟨by rw [ho]; exact forEachCaught_length env mids data,
         by rw [ho]; exact forEachCaught_get? env mids data i,
         fireCaught_get? cenv cids i,
         fireCaught_get? denv dids i⟩

/-- Concrete instantiation of the C2 theorem: handler 0 throws, yet
handler 1 is still invoked with the same parsed message. -/
theorem handler_errors_contained_witness :
    ((fun _ : String => some (0 : Nat)) "m" = some (0 : Nat)) ∧
    ((onmessage (fun _ : String => some (0 : Nat))
        (fun j _ => if j = 0 then Except.error "boom" else Except.ok ())
        [0, 1] "m").length = ([0, 1] : List Nat).length ∧
     (onmessage (fun _ : String => some (0 : Nat))
        (fun j _ => if j = 0 then Except.error "boom" else Except.ok ())
        [0, 1] "m").get? 1 =
        (([0, 1] : List Nat).get? 1).map
          (fun j => (fun j _ => if j = 0 then Except.error "boom"
                                else Except.ok ()) j (0 : Nat)) ∧
     (fireCaught (fun _ => Except.error "down") [2]).get? 1 =
        (([2] : List Nat).get? 1).map (fun _ => Except.error "down") ∧
     (fireCaught (fun _ => Except.ok ()) [3]).get? 1 =
        (([3] : List Nat).get? 1).map (fun _ => Except.ok ())) :=
  ⟨rfl,
   handler_errors_contained (fun _ : String => some (0 : Nat))
     (fun j _ => if j = 0 then Except.error "boom" else Except.ok ())
     (fun _ => Except.error "down") (fun _ => Except.ok ())
     [0, 1] [2] [3] "m" 0 1 rfl⟩

/-- Claim C3 counterexample: with prior handler set {h}, registering h
again leaves the set at {h} (JS Set add is idempotent), so the returned
cleanup deletes h and leaves the empty set — not the prior state. -/
theorem addMessageHandler_roundtrip_fails :
    ((addMessageHandler
        { WSService.init with messageHandlers := [0] } 0).2
      (addMessageHandler
        { WSService.init with messageHandlers := [0] } 0).1).messageHandlers
      ≠ [0] := by
  decide

/-- JS-Set round trip: deleting a freshly added element restores the set,
provided the element was not already present. -/
lemma setDelete_setAdd (l : List Nat) (h : Nat) (hnot : h ∉ l) :
    setDelete (setAdd l h) h = l := by
  unfold setAdd setDelete
  rw [if_neg hnot, List.filter_append]
  have h1 : l.filter (fun x => decide (x ≠ h)) = l := by
    apply List.filter_eq_self.mpr
    intro a ha
    simp only [decide_eq_true_eq]
    rintro rfl
    exact hnot ha
  have h2 : ([h].filter (fun x => decide (x ≠ h))) = [] := by simp
  rw [h1, h2, List.append_nil]

/-- The cleanup closure always removes the handler from the set. -/
lemma setDelete_not_mem (l : List Nat) (h : Nat) : h ∉ setDelete l h := by
  simp [setDelete, List.mem_filter]

/-- Claim C3 (amended): when the handler is not already registered,
calling `addMessageHandler` (likewise `addConnectHandler` /
`addDisconnectHandler`) and then the returned cleanup restores the
handler sets exactly to their prior state; and whatever the state the
cleanup runs on, afterwards the handler is absent from the set, so the
dispatch loops (which invoke exactly the handlers in the set) never
invoke it again. -/
theorem addHandler_cleanup_roundtrip (s s2 : WSService) (h : Nat)
    (hm : h ∉ s.messageHandlers) (hc : h ∉ s.connectHandlers)
    (hd : h ∉ s.disconnectHandlers) :
    (addMessageHandler s h).2 (addMessageHandler s h).1 = s ∧
    (addConnectHandler s h).2 (addConnectHandler s h).1 = s ∧
    (addDisconnectHandler s h).2 (addDisconnectHandler s h).1 = s ∧
    h ∉ ((addMessageHandler s h).2 s2).messageHandlers ∧
    h ∉ ((addConnectHandler s h).2 s2).connectHandlers ∧
    h ∉ ((addDisconnectHandler s h).2 s2).disconnectHandlers := by
  refine ⟨?_, ?_, ?_, ?_, ?_, ?_⟩
  · show { s with messageHandlers := setDelete (setAdd s.messageHandlers h) h } = s
    rw [setDelete_setAdd s.messageHandlers h hm]
  · show { s with connectHandlers := setDelete (setAdd s.connectHandlers h) h } = s
    rw [setDelete_setAdd s.connectHandlers h hc]
  · show { s with disconnectHandlers := setDelete (setAdd s.disconnectHandlers h) h } = s
    rw [setDelete_setAdd s.disconnectHandlers h hd]
  · exact setDelete_not_mem s2.messageHandlers h
  · exact setDelete_not_mem s2.connectHandlers h
  · exact setDelete_not_mem s2.disconnectHandlers h

/-- Concrete instantiation of the amended C3 theorem on a fresh service. -/
theorem addHandler_cleanup_roundtrip_witness :
    ((4 : Nat) ∉ WSService.init.messageHandlers ∧
     (4 : Nat) ∉ WSService.init.connectHandlers ∧
     (4 : Nat) ∉ WSService.init.disconnectHandlers) ∧
    ((addMessageHandler WSService.init 4).2
        (addMessageHandler WSService.init 4).1 = WSService.init ∧
     (addConnectHandler WSService.init 4).2
        (addConnectHandler WSService.init 4).1 = WSService.init ∧
     (addDisconnectHandler WSService.init 4).2
        (addDisconnectHandler WSService.init 4).1 = WSService.init ∧
     (4 : Nat) ∉ ((addMessageHandler WSService.init 4).2
        WSService.init).messageHandlers ∧
     (4 : Nat) ∉ ((addConnectHandler WSService.init 4).2
        WSService.init).connectHandlers ∧
     (4 : Nat) ∉ ((addDisconnectHandler WSService.init 4).2
        WSService.init).disconnectHandlers) :=
  ⟨⟨by decide, by decide, by decide⟩,
   addHandler_cleanup_roundtrip WSService.init WSService.init 4
     (by decide) (by decide) (by decide)⟩

/-- Claim C5: when the DELETE API call succeeds, `deleteJob` removes
exactly the jobs whose id equals `jobId` — the result is the filtered
prior list, a sublist of it (order and all other jobs preserved), no
surviving job carries the deleted id, and every non-matching job
survives; when the API call fails, the jobs list is left unchanged. -/
theorem deleteJob_removes_or_noop (apiOk : Bool) (jobs : List Job)
    (jobId : Nat) :
    (apiOk = true →
      deleteJob apiOk jobs jobId = jobs.filter (fun j => j.id ≠ jobId) ∧
      (deleteJob apiOk jobs jobId).Sublist jobs ∧
      (∀ j ∈ deleteJob apiOk jobs jobId, j.id ≠ jobId) ∧
      (∀ j ∈ jobs, j.id ≠ jobId → j ∈ deleteJob apiOk jobs jobId)) ∧
    (apiOk = false → deleteJob apiOk jobs jobId = jobs) := by
  constructor
  · rintro rfl
    refine ⟨rfl, List.filter_sublist _, ?_, ?_⟩
    · intro j hj
      have hj2 : j ∈ jobs.filter (fun j => decide (j.id ≠ jobId)) := by
        simpa [deleteJob] using hj
      simpa using (List.mem_filter.mp hj2).2
    · intro j hj hne
      simp [deleteJob, List.mem_filter, hj, hne]
  · rintro rfl; rfl

/-- Concrete instantiation of the C5 theorem for both API outcomes. -/
theorem deleteJob_removes_or_noop_witness :
    deleteJob true [sampleJob 1 true, sampleJob 2 false] 1 =
      [sampleJob 1 true, sampleJob 2 false].filter (fun j => j.id ≠ 1) ∧
    deleteJob false [sampleJob 1 true] 1 = [sampleJob 1 true] :=
  ⟨((deleteJob_removes_or_noop true
      [sampleJob 1 true, sampleJob 2 false] 1).1 rfl).1,
   (deleteJob_removes_or_noop false [sampleJob 1 true] 1).2 rfl⟩

/-- Claim C8: a successful `toggleJob` is frame-preserving — the list
keeps its length, every job whose id differs from `jobId` is unchanged,
and the job with the matching id gets `is_active` set to the API's value
while every other field is untouched. -/
theorem toggleJob_frame (jobs : List Job) (jobId : Nat) (b : Bool)
    (i : Nat) (j j' : Job) (hj : jobs.get? i = some j)
    (hj' : (toggleJob jobs jobId b).get? i = some j') :
    (toggleJob jobs jobId b).length = jobs.length ∧
    (j.id ≠ jobId → j' = j) ∧
    (j.id = jobId →
      j'.is_active = b ∧ j'.id = j.id ∧ j'.name = j.name ∧
      j'.monitoring_focus = j.monitoring_focus ∧
      j'.last_run = j.last_run ∧ j'.next_run = j.next_run ∧
      j'.query = j.query ∧ j'.urls = j.urls ∧
      j'.schedule_cron = j.schedule_cron ∧
      j'.created_at = j.created_at) := by
  have hmap : (toggleJob jobs jobId b).get? i =
      (jobs.get? i).map (fun job =>
        if job.id = jobId then { job with is_active := b } else job) :=
    List.get?_map _ _ _
  rw [hj] at hmap
  rw [hmap] at hj'
  have hj2 : j' = if j.id = jobId then { j with is_active := b } else j :=
    (Option.some.injEq _ _ ▸ hj').symm
  refine ⟨List.length_map _ _, ?_, ?_⟩
  · intro hne
    rw [hj2, if_neg hne]
  · intro heq
    rw [hj2, if_pos heq]
    exact ⟨rfl, rfl, rfl, rfl, rfl, rfl, rfl, rfl, rfl, rfl⟩

/-- Concrete instantiation of the C8 theorem: toggling job 2 flips only
its `is_active` field and leaves job 1 untouched. -/
theorem toggleJob_frame_witness :
    ([sampleJob 1 true, sampleJob 2 false].get? 1 =
      some (sampleJob 2 false)) ∧
    ((toggleJob [sampleJob 1 true, sampleJob 2 false] 2 true).get? 1 =
      some (sampleJob 2 true)) ∧
    ((sampleJob 2 true).is_active = true ∧
     (sampleJob 2 true).id = (sampleJob 2 false).id ∧
     (sampleJob 2 true).name = (sampleJob 2 false).name ∧
     (sampleJob 2 true).monitoring_focus =
       (sampleJob 2 false).monitoring_focus ∧
     (sampleJob 2 true).last_run = (sampleJob 2 false).last_run ∧
     (sampleJob 2 true).next_run = (sampleJob 2 false).next_run ∧
     (sampleJob 2 true).query = (sampleJob 2 false).query ∧
     (sampleJob 2 true).urls = (sampleJob 2 false).urls ∧
     (sampleJob 2 true).schedule_cron = (sampleJob 2 false).schedule_cron ∧
     (sampleJob 2 true).created_at = (sampleJob 2 false).created_at) :=
  ⟨rfl, by decide,
   (toggleJob_frame [sampleJob 1 true, sampleJob 2 false] 2 true 1
      (sampleJob 2 false) (sampleJob 2 true) rfl (by decide)).2.2 rfl⟩

/-- Claim C6: whenever the normalized-content fingerprints of the
baseline and the fresh snapshot are equal, the Significance Classifier
returns verdict `Unchanged` having decided at stage 1 (no further
comparison stages run), and the cycle performs no baseline commit. -/
theorem classify_fingerprint_equal_unchanged (fp : String → Nat)
    (dist : String → String → Rat) (cfg : ClassifierConfig)
    (base snap : Snapshot)
    (hfp : fp base.content = fp snap.content) :
    classify fp dist cfg base snap = (Verdict.Unchanged, 1) ∧
    runCycle fp dist cfg (some base) (Except.ok snap) =
      { verdict := Verdict.Unchanged, newBaseline := some base
      , committed := false, alerted := false } := by
  have h1 : classify fp dist cfg base snap = (Verdict.Unchanged, 1) := by
    simp [classify, hfp]
  exact ⟨h1, by simp [runCycle, h1]⟩

/-- Concrete instantiation of the C6 theorem: two snapshots with equal
fingerprints under a length fingerprint. -/
theorem classify_fingerprint_equal_unchanged_witness :
    (String.length "ab" = String.length "cd") ∧
    (classify String.length (fun _ _ => (1 : Rat))
        ⟨(1 : Rat) / 10, 1 / 2⟩ ⟨0, "ab"⟩ ⟨1, "cd"⟩ =
      (Verdict.Unchanged, 1) ∧
     runCycle String.length (fun _ _ => (1 : Rat))
        ⟨(1 : Rat) / 10, 1 / 2⟩ (some ⟨0, "ab"⟩) (Except.ok ⟨1, "cd"⟩) =
      { verdict := Verdict.Unchanged, newBaseline := some ⟨0, "ab"⟩
      , committed := false, alerted := false }) :=
  ⟨by decide,
   classify_fingerprint_equal_unchanged String.length
     (fun _ _ => (1 : Rat)) ⟨(1 : Rat) / 10, 1 / 2⟩
     ⟨0, "ab"⟩ ⟨1, "cd"⟩ (by decide)⟩
